import Mathlib

/-!
Verification development for the QLoRA fine-tuning script `src/example/qlora.py`
of the repository `amitgupta7/vllm-test-harness`.

The script is a sequential orchestration pipeline: static configuration, model
acquisition, tokenizer acquisition, dataset acquisition, training, persistence.
We embed the pieces the claims need:

* the pure formatting function `formatting_prompts_func` (lines 86-92), embedded
  faithfully including its batch shape and positional indexing;
* the tokenizer padding patch (line 79);
* the dataset slice (line 83) and the trainer step arithmetic, modelled from the
  design document where the implementing code lives in external libraries;
* the model-acquisition steps (lines 60-73) as a small state machine;
* the control flow of `finetune_model` (lines 56-109) as an event trace.
-/

namespace QloraScript

/-- Record shape of the batch mapping the trainer hands to the formatting
function: three named columns of text fields, each a list with one entry per
record, plus any further columns the dataset may carry (the Alpaca dataset for
example also stores a pre-rendered text column, which the function never
reads). -/
structure Batch where
  instruction : List String
  input : List String
  output : List String
  extra : List (String × List String)
deriving Repr, DecidableEq

/-- Text built for one record by the f-string on line 90 of the source,
with the three fields substituted. -/
def formatted_text (instruction input output : String) : String :=
  "Below is an instruction that describes a task, paired with an input that provides further context. Write a response that appropriately completes the request.\n\n### Instruction:\n"
    ++ instruction ++ "\n\n### Input:\n" ++ input ++ "\n\n### Response:\n" ++ output

/-- Sequential collection loop: for each index in order, evaluate the lookup;
the first out-of-range lookup aborts the whole call (models the Python
IndexError raised by positional list indexing inside the loop). -/
def collect_texts (f : Nat → Option String) : List Nat → Option (List String)
  | [] => some []
  | i :: is => (f i).bind (fun t => (collect_texts f is).map (fun ts => t :: ts))

/-- Embedding of `formatting_prompts_func` (source lines 86-92): iterate the
indices `0 .. len(ex.instruction) - 1`, index the three columns positionally,
and collect the formatted strings in order; an out-of-range index on any
column makes the call undefined. -/
def formatting_prompts_func (ex : Batch) : Option (List String) :=
  collect_texts
    (fun i =>
      ex.instruction[i]?.bind fun a =>
        ex.input[i]?.bind fun b =>
          ex.output[i]?.map fun c => formatted_text a b c)
    (List.range ex.instruction.length)

/-- Prompt template written in section 6 of the design document, transcribed
from the words of the spec (not from the source) so that the source f-string
can be compared against it. -/
def spec_prompt_template (instruction input output : String) : String :=
  "Below is an instruction that describes a task, paired with an input that provides further context. Write a response that appropriately completes the request.\n\n### Instruction:\n"
    ++ instruction ++ "\n\n### Input:\n" ++ input ++ "\n\n### Response:\n" ++ output

/-- Everything the formatted text contains before the output field: the shared
head of two formatted strings that differ only in the output field. -/
def response_head (instruction input : String) : String :=
  "Below is an instruction that describes a task, paired with an input that provides further context. Write a response that appropriately completes the request.\n\n### Instruction:\n"
    ++ instruction ++ "\n\n### Input:\n" ++ input ++ "\n\n### Response:\n"

theorem string_append_assoc (a b c : String) : a ++ b ++ c = a ++ (b ++ c) := by
  apply String.ext
  simp [String.data_append, List.append_assoc]

theorem collect_texts_length {f : Nat → Option String} {l : List Nat}
    {r : List String} (h : collect_texts f l = some r) : r.length = l.length := by
  induction l generalizing r with
  | nil =>
    simp [collect_texts] at h
    simp [← h]
  | cons i is ih =>
    simp only [collect_texts, Option.bind_eq_some, Option.map_eq_some'] at h
    obtain ⟨t, _, ts, hts, rfl⟩ := h
    simp [ih hts]

theorem collect_texts_isSome {f : Nat → Option String} {l : List Nat} :
    (collect_texts f l).isSome = true ↔ ∀ i ∈ l, (f i).isSome = true := by
  induction l with
  | nil => simp [collect_texts]
  | cons i is ih =>
    simp only [collect_texts, List.mem_cons]
    constructor
    · intro h
      obtain ⟨r, hr⟩ := Option.isSome_iff_exists.mp h
      simp only [Option.bind_eq_some, Option.map_eq_some'] at hr
      obtain ⟨t, ht, ts, hts, _⟩ := hr
      intro j hj
      rcases hj with rfl | hj
      · simp [ht]
      · exact ih.mp (by simp [hts]) j hj
    · intro h
      obtain ⟨t, ht⟩ := Option.isSome_iff_exists.mp (h i (Or.inl rfl))
      obtain ⟨ts, hts⟩ :=
        Option.isSome_iff_exists.mp (ih.mpr (fun j hj => h j (Or.inr hj)))
      simp [ht, hts]

theorem formatting_singleton (a b c : String) (e : List (String × List String)) :
    formatting_prompts_func ⟨[a], [b], [c], e⟩ = some [formatted_text a b c] := rfl

theorem formatting_depends_only_on_fields (b₁ b₂ : Batch)
    (h1 : b₁.instruction = b₂.instruction) (h2 : b₁.input = b₂.input)
    (h3 : b₁.output = b₂.output) :
    formatting_prompts_func b₁ = formatting_prompts_func b₂ := by
  cases b₁
  cases b₂
  dsimp only at h1 h2 h3
  subst h1
  subst h2
  subst h3
  rfl

/-- C1: for every record with text fields instruction, input and output, the
formatted training string produced by the formatting function equals, byte for
byte, the fixed template of section 6 with the three fields substituted,
including the literal Input segment even when the input field is empty. -/
theorem C1_formatting_matches_spec_template (instruction input output : String) :
    formatted_text instruction input output
        = spec_prompt_template instruction input output ∧
      formatting_prompts_func ⟨[instruction], [input], [output], []⟩
        = some [spec_prompt_template instruction input output] :=
  ⟨rfl, formatting_singleton instruction input output []⟩

/-- C2: the formatting function is a pure mapping from a single record to a
single training string, determined only by the instruction, input and output
fields of the record and by no other state. -/
theorem C2_formatting_pure_single_mapping :
    (∀ b₁ b₂ : Batch, b₁.instruction = b₂.instruction → b₁.input = b₂.input →
        b₁.output = b₂.output →
        formatting_prompts_func b₁ = formatting_prompts_func b₂) ∧
      ∀ (instruction input output : String) (e : List (String × List String)),
        formatting_prompts_func ⟨[instruction], [input], [output], e⟩
          = some [formatted_text instruction input output] :=
  ⟨formatting_depends_only_on_fields, fun i inp o e => formatting_singleton i inp o e⟩

/-- Witness for C2 at a concrete record: two batches agreeing on the three text
columns but carrying different extra columns format identically, and a
one-record batch formats to exactly one string. -/
theorem C2_formatting_pure_single_mapping_witness :
    formatting_prompts_func ⟨["Say hi"], [""], ["Hi there"], [("text", ["t"])]⟩
        = formatting_prompts_func ⟨["Say hi"], [""], ["Hi there"], []⟩ ∧
      formatting_prompts_func ⟨["Say hi"], [""], ["Hi there"], []⟩
        = some [formatted_text "Say hi" "" "Hi there"] :=
  ⟨C2_formatting_pure_single_mapping.1 _ _ rfl rfl rfl,
    C2_formatting_pure_single_mapping.2 "Say hi" "" "Hi there" []⟩

/-- C7: two records identical except in the output field format to strings
sharing the head up to and including the Response marker, and differing only
in the trailing segment after it. -/
theorem C7_differs_only_after_response_marker (instruction input o₁ o₂ : String) :
    formatted_text instruction input o₁ = response_head instruction input ++ o₁ ∧
      formatted_text instruction input o₂ = response_head instruction input ++ o₂ ∧
      ∃ q, response_head instruction input = q ++ "### Response:\n" := by
  refine ⟨rfl, rfl,
    ⟨"Below is an instruction that describes a task, paired with an input that provides further context. Write a response that appropriately completes the request.\n\n### Instruction:\n"
      ++ instruction ++ "\n\n### Input:\n" ++ input ++ "\n\n", ?_⟩⟩
  rw [string_append_assoc]
  simp only [response_head]
  congr 1

/-- C10: the formatting function operates on a batch; it is well defined
exactly when the input and output columns are at least as long as the
instruction column, and it then returns one formatted string per entry of the
instruction column. -/
theorem C10_batch_shape (b : Batch) :
    ((formatting_prompts_func b).isSome = true ↔
        b.instruction.length ≤ b.input.length ∧
          b.instruction.length ≤ b.output.length) ∧
      ∀ l, formatting_prompts_func b = some l → l.length = b.instruction.length := by
  constructor
  · rw [formatting_prompts_func, collect_texts_isSome]
    constructor
    · intro h
      constructor
      · by_contra hlt
        push_neg at hlt
        have hm := h b.input.length (by rw [List.mem_range]; omega)
        have hin : b.input[b.input.length]? = none := by
          simp [List.getElem?_eq_none]
        have hins : b.instruction[b.input.length]?
            = some (b.instruction[b.input.length]) :=
          List.getElem?_eq_getElem hlt
        rw [hins, hin] at hm
        simp at hm
      · by_contra hlt
        push_neg at hlt
        have hm := h b.output.length (by rw [List.mem_range]; omega)
        have hout : b.output[b.output.length]? = none := by
          simp [List.getElem?_eq_none]
        have hins : b.instruction[b.output.length]?
            = some (b.instruction[b.output.length]) :=
          List.getElem?_eq_getElem hlt
        rw [hins, hout] at hm
        simp at hm
    · rintro ⟨h1, h2⟩ i hi
      rw [List.mem_range] at hi
      have hi2 : i < b.input.length := lt_of_lt_of_le hi h1
      have hi3 : i < b.output.length := lt_of_lt_of_le hi h2
      rw [List.getElem?_eq_getElem hi, List.getElem?_eq_getElem hi2,
        List.getElem?_eq_getElem hi3]
      rfl
  · intro l hl
    rw [formatting_prompts_func] at hl
    have := collect_texts_length hl
    simpa using this

/-- Witness for C10 at a concrete two-record batch: the call is defined and
returns two formatted strings, one per instruction entry. -/
theorem C10_batch_shape_witness :
    ([formatted_text "i1" "a" "x", formatted_text "i2" "b" "y"] : List String).length
      = (Batch.mk ["i1", "i2"] ["a", "b"] ["x", "y"] []).instruction.length :=
  (C10_batch_shape ⟨["i1", "i2"], ["a", "b"], ["x", "y"], []⟩).2
    [formatted_text "i1" "a" "x", formatted_text "i2" "b" "y"] rfl

/-- Tokenizer handle: the padding-token and end-of-sequence-token assignments
are the only attributes the script touches; either may be absent on the loaded
artifact. -/
structure Tokenizer where
  pad_token : Option String
  eos_token : Option String
deriving Repr, DecidableEq

/-- Embedding of line 79 of the source: the assignment
`tokenizer.pad_token = tokenizer.eos_token`, performed unconditionally right
after the tokenizer is loaded. -/
def set_pad_token (t : Tokenizer) : Tokenizer :=
  { t with pad_token := t.eos_token }

/-- C3 counterexample: a loaded tokenizer that already defines a padding token
distinct from its end-of-sequence token does not keep it; line 79 overwrites
it unconditionally. -/
theorem C3_pad_alias_counterexample :
    ¬ ((set_pad_token ⟨some "<pad>", some "</s>"⟩).pad_token = some "<pad>") := by
  decide

/-- C3 amended: tokenizer acquisition unconditionally assigns the
end-of-sequence token to the padding token; in particular a tokenizer with no
padding token ends up with the end-of-sequence token as padding token, and a
previously defined padding token is overwritten rather than left unchanged. -/
theorem C3_pad_alias_unconditional (t : Tokenizer) :
    (set_pad_token t).pad_token = t.eos_token ∧
      (set_pad_token t).eos_token = t.eos_token :=
  ⟨rfl, rfl⟩

/-- Record of the Alpaca dataset: three named text fields. -/
structure AlpacaRecord where
  instruction : String
  input : String
  output : String
deriving Repr, DecidableEq

/-- Number of records requested by the split selector string on line 83 of the
source, the literal `train[:500]`. -/
def slice_size : Nat := 500

/-- Modelled from the spec: the dataset loader applied to the split selector
`train[:500]` (the loader itself lives in the external datasets library, not
in this repository); section 4.4 of the design document states that it fetches
exactly the first N records of the named split, N fixed at 500. -/
def load_dataset_slice (split : List AlpacaRecord) : List AlpacaRecord :=
  split.take slice_size

/-- C4: the dataset slice holds exactly 500 records whenever the underlying
split has at least 500, and holds fewer only when the split itself is
smaller. -/
theorem C4_slice_exactly_500 (split : List AlpacaRecord) :
    (500 ≤ split.length → (load_dataset_slice split).length = 500) ∧
      ((load_dataset_slice split).length < 500 → split.length < 500) := by
  constructor
  · intro h
    simp [load_dataset_slice, slice_size]
    omega
  · intro h
    simp [load_dataset_slice, slice_size] at h
    omega

set_option maxRecDepth 4000 in
/-- Witness for C4 at a concrete split of exactly 500 records. -/
theorem C4_slice_exactly_500_witness :
    (load_dataset_slice (List.replicate 500 ⟨"i", "a", "o"⟩)).length = 500 :=
  (C4_slice_exactly_500 (List.replicate 500 ⟨"i", "a", "o"⟩)).1
    (le_of_eq (List.length_replicate 500 ⟨"i", "a", "o"⟩).symm)

/-- Training options bundle constructed on lines 38-53 of the source; the two
floating-point hyperparameters (learning rate and weight decay) are not
embedded, as no claim touches them and the embedding avoids floating point. -/
structure TrainingOptions where
  output_dir : String
  num_train_epochs : Nat
  per_device_train_batch_size : Nat
  gradient_accumulation_steps : Nat
  optim : String
  logging_steps : Nat
  fp16 : Bool
  save_strategy : String
  report_to : String
deriving Repr, DecidableEq

/-- Output directory constant of line 16 of the source. -/
def OUTPUT_DIR : String := "./phi-2-alpaca-qlora"

/-- Embedding of the `training_arguments` bundle, lines 38-53 of the source. -/
def training_arguments : TrainingOptions :=
  { output_dir := OUTPUT_DIR
    num_train_epochs := 1
    per_device_train_batch_size := 4
    gradient_accumulation_steps := 1
    optim := "paged_adamw_32bit"
    logging_steps := 10
    fp16 := true
    save_strategy := "epoch"
    report_to := "none" }

/-- Modelled from the spec: optimizer updates executed by one accelerator
replica of the training loop (the loop itself lives in the external trainer
library). Section 4.5 of the design document: the loop makes
`num_train_epochs` passes over the records, batches
`per_device_train_batch_size` examples per step, and accumulates gradients
over `gradient_accumulation_steps` steps before each optimizer update. -/
def optimizer_steps (epochs records batch accum : Nat) : Nat :=
  epochs * (((records + batch - 1) / batch) / accum)

/-- C6: under the compiled-in configuration, one epoch over the 500-record
slice at per-device batch size 4 with gradient accumulation 1 executes exactly
125 optimizer steps per accelerator replica. -/
theorem C6_125_optimizer_steps :
    optimizer_steps training_arguments.num_train_epochs slice_size
        training_arguments.per_device_train_batch_size
        training_arguments.gradient_accumulation_steps = 125 := by
  decide

/-- Observable actions of `finetune_model` (source lines 56-109), in the order
the script can perform them: the four model-acquisition steps, the two
tokenizer steps, the dataset fetch, the trainer construction, the training
call, and the two persistence calls. -/
inductive Event where
  | loadModel
  | cacheConfig
  | kbitPrepare
  | injectAdapters
  | loadTokenizer
  | padPatch
  | loadDataset
  | buildTrainer
  | train
  | saveAdapters
  | saveTokenizer
deriving Repr, DecidableEq

/-- State of the model handle as the acquisition steps transform it, together
with the trace of steps applied so far. The step effects are modelled from
sections 4.2 and 8 of the design document, since the transformations
themselves live in the external transformers and peft libraries. -/
structure ModelState where
  quantized_at_load : Bool
  use_cache : Bool
  pretraining_tp : Nat
  kbit_prepared : Bool
  adapters_injected : Bool
  base_trainable : Bool
  adapters_trainable : Bool
  steps : List Event
deriving Repr, DecidableEq

/-- Modelled from the spec: loading the base weights with the quantization
options applied at load time (source lines 60-65); the fresh handle has all
base parameters trainable, the cache enabled, and no adapters. -/
def from_pretrained_quantized : ModelState :=
  { quantized_at_load := true
    use_cache := true
    pretraining_tp := 0
    kbit_prepared := false
    adapters_injected := false
    base_trainable := true
    adapters_trainable := false
    steps := [Event.loadModel] }

/-- Embedding of source lines 66-67: disable internal key-value caching and
set the tensor-parallelism hint to a single partition. -/
def config_cache_patch (m : ModelState) : ModelState :=
  { m with
    use_cache := false
    pretraining_tp := 1
    steps := m.steps ++ [Event.cacheConfig] }

/-- Modelled from the spec: k-bit-training preparation (source line 70); the
call stabilizes training on quantized weights and leaves the parameter
partition to the adapter-injection step. -/
def prepare_model_for_kbit_training (m : ModelState) : ModelState :=
  { m with
    kbit_prepared := true
    steps := m.steps ++ [Event.kbitPrepare] }

/-- Modelled from the spec: adapter injection (source line 73); low-rank
adapters become the only trainable parameters and every base parameter is
frozen. -/
def get_peft_model (m : ModelState) : ModelState :=
  { m with
    adapters_injected := true
    adapters_trainable := true
    base_trainable := false
    steps := m.steps ++ [Event.injectAdapters] }

/-- Model acquisition exactly as `finetune_model` performs it, source lines
60-73: load quantized, patch the cache and parallelism config, prepare for
k-bit training, inject adapters. -/
def model_acquisition : ModelState :=
  get_peft_model (prepare_model_for_kbit_training
    (config_cache_patch from_pretrained_quantized))

/-- C5: model acquisition performs its four steps in the required order, and
the resulting handle has trainable adapters, frozen base parameters, weights
quantized at load, caching disabled, the single-partition hint, and the k-bit
preparation applied. -/
theorem C5_model_acquisition_order_and_state :
    model_acquisition.steps
        = [Event.loadModel, Event.cacheConfig, Event.kbitPrepare,
            Event.injectAdapters] ∧
      model_acquisition.adapters_trainable = true ∧
      model_acquisition.base_trainable = false ∧
      model_acquisition.quantized_at_load = true ∧
      model_acquisition.use_cache = false ∧
      model_acquisition.pretraining_tp = 1 ∧
      model_acquisition.kbit_prepared = true ∧
      model_acquisition.adapters_injected = true := by
  decide

/-- Outcomes of the four external operations the script depends on: whether
the model, tokenizer and dataset identifiers resolve, and whether the
training loop completes without error. -/
structure Env where
  model_ok : Bool
  tokenizer_ok : Bool
  dataset_ok : Bool
  train_ok : Bool
deriving Repr, DecidableEq

/-- Control flow of `finetune_model` (source lines 56-109) as the trace of
calls it makes under a given environment, paired with whether the process
completes normally. The script installs no exception handler, so the first
failing call terminates the process; in particular the persistence calls of
lines 107-108 run only after the training call of line 104 has returned. -/
def finetune_model (env : Env) : List Event × Bool :=
  if env.model_ok = false then ([Event.loadModel], false)
  else if env.tokenizer_ok = false then
    ([Event.loadModel, Event.cacheConfig, Event.kbitPrepare,
      Event.injectAdapters, Event.loadTokenizer], false)
  else if env.dataset_ok = false then
    ([Event.loadModel, Event.cacheConfig, Event.kbitPrepare,
      Event.injectAdapters, Event.loadTokenizer, Event.padPatch,
      Event.loadDataset], false)
  else if env.train_ok = false then
    ([Event.loadModel, Event.cacheConfig, Event.kbitPrepare,
      Event.injectAdapters, Event.loadTokenizer, Event.padPatch,
      Event.loadDataset, Event.buildTrainer, Event.train], false)
  else
    ([Event.loadModel, Event.cacheConfig, Event.kbitPrepare,
      Event.injectAdapters, Event.loadTokenizer, Event.padPatch,
      Event.loadDataset, Event.buildTrainer, Event.train,
      Event.saveAdapters, Event.saveTokenizer], true)

/-- C8: persistence happens last and only on success; in every environment the
two serialization calls appear in the trace exactly when the run completes
normally, each appears at most once, and they sit after the training call at
the very end of the trace. -/
theorem C8_persistence_last_and_only_on_success :
    ∀ m t d r : Bool,
      ((finetune_model ⟨m, t, d, r⟩).1.contains Event.saveAdapters
          = (finetune_model ⟨m, t, d, r⟩).2) ∧
        ((finetune_model ⟨m, t, d, r⟩).1.contains Event.saveTokenizer
          = (finetune_model ⟨m, t, d, r⟩).2) ∧
        ((finetune_model ⟨m, t, d, r⟩).2 = true →
          (finetune_model ⟨m, t, d, r⟩).1.drop
              ((finetune_model ⟨m, t, d, r⟩).1.length - 3)
            = [Event.train, Event.saveAdapters, Event.saveTokenizer]) ∧
        (finetune_model ⟨m, t, d, r⟩).1.count Event.saveAdapters ≤ 1 ∧
        (finetune_model ⟨m, t, d, r⟩).1.count Event.saveTokenizer ≤ 1 := by
  decide

/-- Witness for C8 in the all-success environment: the trace ends with the
training call followed by the two serialization calls. -/
theorem C8_persistence_last_witness :
    (finetune_model ⟨true, true, true, true⟩).1.drop
        ((finetune_model ⟨true, true, true, true⟩).1.length - 3)
      = [Event.train, Event.saveAdapters, Event.saveTokenizer] :=
  ((C8_persistence_last_and_only_on_success true true true true).2.2.1) (by decide)

/-- C9: an unresolvable dataset identifier aborts the run before any
persistence: the process terminates abnormally, nothing is serialized, no
training happens, and the dataset fetch is attempted exactly once, with no
retry. -/
theorem C9_dataset_failure_aborts_before_persistence :
    ∀ m t r : Bool,
      ((finetune_model ⟨m, t, false, r⟩).2 = false) ∧
        (finetune_model ⟨m, t, false, r⟩).1.contains Event.saveAdapters = false ∧
        (finetune_model ⟨m, t, false, r⟩).1.contains Event.saveTokenizer = false ∧
        (finetune_model ⟨m, t, false, r⟩).1.contains Event.train = false ∧
        (finetune_model ⟨m, t, false, r⟩).1.count Event.loadDataset ≤ 1 := by
  decide

end QloraScript
